import Mathlib

/-!
Verification development for the SonifiedLLMKit runtime shim
(`RuntimeShim/src/sonified_llama_stub.c` against `RuntimeShim/include/sonified_llama.h`).

The C shim is shallowly embedded: each C function becomes a Lean function over
an explicit state, and every call into the external llama backend
(`llama_tokenize`, `llama_decode`, `llama_get_logits`, `llama_token_to_piece`,
`clock_gettime`, `task_info`, `malloc`/`calloc`) is modelled by an oracle
structure supplying the values those external calls would return.  Machine
doubles are modelled as rationals (only sign / zero facts are proved about
them), C `(int)` casts as truncation toward zero, and pointers by their
nullity plus the data they reference.
-/

namespace SonifiedLlama

/-- C truncation of a floating-point value to `int`: toward zero. -/
def cTrunc (q : ℚ) : Int := if q < 0 then Int.ceil q else Int.floor q

/-- Sentinel token value `LLAMA_TOKEN_NULL` from llama.h. -/
def LLAMA_TOKEN_NULL : Int := -1

/-- Mirror of `llm_stats_t` from sonified_llama.h (`tok_per_sec` is a C float,
modelled as a rational). -/
structure llm_stats_t where
  ttfb_ms : Int
  tok_per_sec : ℚ
  total_ms : Int
  peak_rss_mb : Int
  success : Int
  prompt_tokens : Int
  completion_tokens : Int
  total_tokens : Int
deriving Repr, DecidableEq

/-- The all-zero snapshot produced by `memset(&h->lastStats, 0, ...)`. -/
def zeroStats : llm_stats_t :=
  { ttfb_ms := 0, tok_per_sec := 0, total_ms := 0, peak_rss_mb := 0,
    success := 0, prompt_tokens := 0, completion_tokens := 0, total_tokens := 0 }

/-- Mirror of `llm_gen_opts_t` from sonified_llama.h. -/
structure llm_gen_opts_t where
  context_length : Int
  temperature : ℚ
  top_p : ℚ
  max_tokens : Int
  seed : Int
deriving Repr, DecidableEq

/-- Mirror of the private `LLMContext` struct.  The `llama_model*` and
`llama_context*` pointers are modelled by their nullity (`model_nonnull`,
`ctx_nonnull`); the pointed-to backend objects live in the oracles. -/
structure LLMContext where
  force_stats_fail : Int
  cancelFlag : Bool
  model_nonnull : Bool
  ctx_nonnull : Bool
  n_ctx : Int
  n_gpu_layers : Int
  lastStats : llm_stats_t
deriving Repr, DecidableEq

/-- Mirror of `get_env_ctx_override`.  `envParsed = none` models the env var
`SONIFIED_CTX` being unset or empty; `some v` models the `strtol` result. -/
def get_env_ctx_override (envParsed : Option Int) : Int :=
  match envParsed with
  | none => 0
  | some v => if v < 64 then 64 else if v > 32768 then 32768 else v

/-- Oracle for the external calls made by `llm_init`: allocation results,
model/context creation results, the parsed env override, and whether the
Apple-Silicon compile-time branch is active. -/
structure InitOracle where
  calloc_ok : Bool
  model_load_ok : Bool
  ctx_create_ok : Bool
  calloc2_ok : Bool
  env_ctx : Option Int
  apple_silicon : Bool
deriving Repr, DecidableEq

/-- Mirror of `llm_init`.  Takes and returns the global `g_backend_refs`
counter explicitly; returns the created handle (or `none`) and the new
counter value. -/
def llm_init (g_backend_refs : Int) (model_path : Option String)
    (o : InitOracle) : Option LLMContext × Int :=
  match model_path with
  | none => (none, g_backend_refs)
  | some path =>
    if path = "" then (none, g_backend_refs)
    else if path = "stub" ∨ path = "/dev/null" then
      -- stub path: no backend refcount traffic at all
      if o.calloc_ok = false then (none, g_backend_refs)
      else
        let ctx_override := get_env_ctx_override o.env_ctx
        let n_ctx : Int := if 0 < ctx_override then ctx_override else 4096
        (some { force_stats_fail := 0, cancelFlag := false, model_nonnull := false,
                ctx_nonnull := false, n_ctx := n_ctx, n_gpu_layers := 0,
                lastStats := zeroStats }, g_backend_refs)
    else
      -- real path: atomic_fetch_add(&g_backend_refs, 1)
      let refs1 := g_backend_refs + 1
      let n_gpu_layers : Int := if o.apple_silicon then 999 else 0
      if o.model_load_ok = false then (none, refs1 - 1)
      else
        let ctx_override := get_env_ctx_override o.env_ctx
        let n_ctx : Int := if 0 < ctx_override then ctx_override else 4096
        if o.ctx_create_ok = false then (none, refs1 - 1)
        else if o.calloc2_ok = false then (none, refs1 - 1)
        else
          (some { force_stats_fail := 0, cancelFlag := false, model_nonnull := true,
                  ctx_nonnull := true, n_ctx := n_ctx, n_gpu_layers := n_gpu_layers,
                  lastStats := zeroStats }, refs1)

/-- Mirror of `llm_free`: on a non-null handle it frees the context and model
and then unconditionally runs `atomic_fetch_sub(&g_backend_refs, 1)` — also
for stub handles that never incremented the counter.  Returns the new counter
value. -/
def llm_free (g_backend_refs : Int) (h : Option LLMContext) : Int :=
  match h with
  | none => g_backend_refs
  | some _ => g_backend_refs - 1

/-- Mirror of `llm_cancel`. -/
def llm_cancel (h : Option LLMContext) : Option LLMContext :=
  match h with
  | none => none
  | some ctx => some { ctx with cancelFlag := true }

/-- Mirror of `llm_stats`.  `out_stats_null` models a null `out_stats`
pointer; `none` models the `-1` failure return and `some s` models the
struct copy plus `0` return. -/
def llm_stats (h : Option LLMContext) (out_stats_null : Bool) :
    Option llm_stats_t :=
  match h with
  | none => none
  | some ctx =>
    if out_stats_null then none
    else if ctx.force_stats_fail ≠ 0 then none
    else some ctx.lastStats

/-- Oracle for the two `llama_tokenize` calls and the `malloc` inside
`tokenize_prompt`: `need0` is the first (sizing) call's return, `n2` the
second (filling) call's return. -/
structure TokenizeOracle where
  need0 : Int
  malloc_ok : Bool
  n2 : Int
deriving Repr, DecidableEq

/-- Mirror of `tokenize_prompt`: two-pass tokenize.  Returns the token count
(`≥ 0`) or `-1` on failure. -/
def tokenize_prompt (o : TokenizeOracle) : Int :=
  let need := if o.need0 < 0 then -o.need0 else o.need0
  if need ≤ 0 then 0
  else if o.malloc_ok = false then -1
  else if o.n2 < 0 then -1
  else o.n2

/-- Tail of the argmax scan of `sample_greedy`: walk the remaining logits
keeping the first index attaining the running maximum (strict `>` updates). -/
def argmax_go : List ℚ → Nat → Nat → ℚ → Nat
  | [], _, best, _ => best
  | v :: rest, i, best, best_v =>
    if best_v < v then argmax_go rest (i + 1) i v
    else argmax_go rest (i + 1) best best_v

/-- Mirror of `sample_greedy`: `none` logits model `llama_get_logits`
returning NULL (gives `LLAMA_TOKEN_NULL`); otherwise the first-maximum index
over the vocabulary, as in the C scan starting from `logits[0]`. -/
def sample_greedy (logits : Option (List ℚ)) : Int :=
  match logits with
  | none => LLAMA_TOKEN_NULL
  | some l => Int.ofNat (argmax_go l.tail 1 0 (l.headD 0))

/-- Oracle for every external call `llm_eval` makes.  Per-iteration functions
are indexed by the `produced` counter (each loop iteration observes each
external value exactly once); `clock` and `rss` are indexed by how many
`now_ms` / `current_rss_bytes` calls happened before. -/
structure EvalOracle where
  tok : TokenizeOracle
  prefill_ok : Bool
  cancelAt : Nat → Bool
  logits : Nat → Option (List ℚ)
  is_eog : Int → Bool
  pieceLen : Nat → Int → Int
  piece : Nat → Int → String
  decode_ok : Nat → Int → Bool
  clock : Nat → ℚ
  rss : Nat → Nat

/-- Mutable state of the decode loop, with ghost observation lists: `sink`
records the callback invocations in order, `fed` the tokens passed to the
per-step `llama_decode`. -/
structure LoopState where
  produced : Nat
  gen_tokens : Nat
  t_first : ℚ
  peak_rss : Nat
  clockIdx : Nat
  rssIdx : Nat
  sink : List String
  fed : List Int
deriving Repr, DecidableEq

/-- Outcome of the decode loop: either the `-4` early `return` of a failed
decode step (with the observations made so far), or loop exit with the final
state and whether the exit was a cancellation. -/
inductive LoopResult where
  | fail (code : Int) (sink : List String) (fed : List Int)
  | done (canceled : Bool) (s : LoopState)
deriving Repr, DecidableEq

/-- Piece conversion and delivery step of one loop iteration (source lines
281–287): when `llama_token_to_piece` yields `0 < n < 512` bytes the piece is
NUL-terminated, `t_first` is recorded on the first delivery, and the sink
callback is invoked; otherwise the state is untouched. -/
def deliver_piece (o : EvalOracle) (s : LoopState) (tokv : Int) : LoopState :=
  let n := o.pieceLen s.produced tokv
  if 0 < n ∧ n < 512 then
    let s0 : LoopState := if s.t_first = 0
      then { s with t_first := o.clock s.clockIdx, clockIdx := s.clockIdx + 1 }
      else s
    { s0 with sink := s0.sink ++ [o.piece s.produced tokv] }
  else s

/-- Counter and RSS-cadence step of one loop iteration (source lines
297–302): `produced` and `gen_tokens` increment, and every 8th generated
token a fresh RSS reading is folded into the running maximum. -/
def count_token (o : EvalOracle) (s : LoopState) : LoopState :=
  let s3 : LoopState := { s with produced := s.produced + 1,
                                 gen_tokens := s.gen_tokens + 1 }
  if s3.gen_tokens % 8 = 0
    then { s3 with peak_rss := max s3.peak_rss (o.rss s3.rssIdx),
                   rssIdx := s3.rssIdx + 1 }
    else s3

/-- Mirror of the `while (produced < max_tokens)` decode loop of `llm_eval`.
The fuel equals `max_tokens - produced`, so fuel 0 is the loop condition
turning false. -/
def decode_loop (o : EvalOracle) : Nat → LoopState → LoopResult
  | 0, s => .done false s
  | fuel + 1, s =>
    if o.cancelAt s.produced then .done true s
    else
      let tokv := sample_greedy (o.logits s.produced)
      if tokv = LLAMA_TOKEN_NULL then .done false s
      else if o.is_eog tokv then .done false s
      else
        let s2 : LoopState :=
          { deliver_piece o s tokv with
            fed := (deliver_piece o s tokv).fed ++ [tokv] }
        if o.decode_ok s.produced tokv = false then .fail (-4) s2.sink s2.fed
        else decode_loop o fuel (count_token o s2)

/-- Result of `llm_eval`: return code, updated handle, and the ghost
observations (sink invocations, tokens fed back, whether `st->lastStats`
was assigned during the call). -/
structure EvalResult where
  ret : Int
  st : Option LLMContext
  sink : List String
  fed : List Int
  wrote_stats : Bool
deriving Repr, DecidableEq

/-- Distinct stage failure code returned for a null handle or null callback. -/
def ARG_ERROR : Int := -1

/-- Distinct stage failure code returned when prompt tokenization fails. -/
def TOKENIZE_ERROR : Int := -2

/-- Distinct stage failure code returned when the prefill decode fails. -/
def PREFILL_ERROR : Int := -3

/-- Distinct stage failure code returned when a per-token decode step fails. -/
def DECODE_STEP_ERROR : Int := -4

/-- Default `max_tokens` resolution of `llm_eval`:
`(opts && opts->max_tokens > 0) ? opts->max_tokens : 128`. -/
def max_tokens_of (opts : Option llm_gen_opts_t) : Int :=
  match opts with
  | some op => if 0 < op.max_tokens then op.max_tokens else 128
  | none => 128

/-- The fixed synthetic snapshot the stub path of `llm_eval` stores: small
fixed positive values, one completion token, zero prompt tokens. -/
def stub_stats : llm_stats_t :=
  { ttfb_ms := 1, tok_per_sec := 100, total_ms := 1, peak_rss_mb := 1,
    success := 1, prompt_tokens := 0, completion_tokens := 1, total_tokens := 1 }

/-- Stub-path body of `llm_eval` (`st->model == NULL`): reset the forced
stats-failure flag, honor the two diagnostic prompt hooks, otherwise emit the
fixed piece "ok" once and store the fixed synthetic snapshot. -/
def stub_eval (st : LLMContext) (prompt : Option String) : EvalResult :=
  let st1 := { st with force_stats_fail := 0 }
  if prompt = some "CAUSE_EVAL_FAIL" then
    { ret := -1, st := some st1, sink := [], fed := [], wrote_stats := false }
  else
    let st2 := if prompt = some "CAUSE_STATS_FAIL"
      then { st1 with force_stats_fail := 1 } else st1
    { ret := 0, st := some { st2 with lastStats := stub_stats },
      sink := ["ok"], fed := [], wrote_stats := true }

/-- Snapshot stored on the empty-prompt early-success path of `llm_eval`. -/
def empty_prompt_stats (o : EvalOracle) : llm_stats_t :=
  let t_start := o.clock 0
  let t_end := o.clock 1
  let peak := max (o.rss 0) (o.rss 1)
  { ttfb_ms := 0, tok_per_sec := 0, total_ms := cTrunc (t_end - t_start),
    peak_rss_mb := cTrunc ((peak : ℚ) / (1024 * 1024)), success := 1,
    prompt_tokens := 0, completion_tokens := 0, total_tokens := 0 }

/-- Loop state at entry to the decode loop: one clock reading (`t_start`) and
two RSS readings (entry and post-prefill) already consumed. -/
def init_loop_state (o : EvalOracle) : LoopState :=
  { produced := 0, gen_tokens := 0, t_first := 0,
    peak_rss := max (o.rss 0) (o.rss 1), clockIdx := 1, rssIdx := 2,
    sink := [], fed := [] }

/-- Mirror of the metrics finalization at the end of `llm_eval` (source
lines 307–322). -/
def finalize_stats (o : EvalOracle) (n_prompt : Int) (canceled : Bool)
    (sf : LoopState) : llm_stats_t :=
  let t_start := o.clock 0
  let t_end := o.clock sf.clockIdx
  let total_ms := t_end - t_start
  let ttfb_ms : ℚ :=
    if 0 < sf.gen_tokens ∧ 0 < sf.t_first then sf.t_first - t_start else 0
  let decode_ms : ℚ :=
    if 0 < sf.gen_tokens ∧ sf.t_first < t_end then t_end - sf.t_first else 0
  let tok_per_sec : ℚ :=
    if 0 < sf.gen_tokens ∧ 0 < decode_ms
    then (sf.gen_tokens : ℚ) / (decode_ms / 1000) else 0
  { ttfb_ms := cTrunc ttfb_ms, tok_per_sec := tok_per_sec,
    total_ms := cTrunc total_ms,
    peak_rss_mb := cTrunc ((sf.peak_rss : ℚ) / (1024 * 1024)),
    success := if canceled then 0 else 1,
    prompt_tokens := n_prompt, completion_tokens := (sf.gen_tokens : Int),
    total_tokens := n_prompt + (sf.gen_tokens : Int) }

/-- Real-model body of `llm_eval` (after the stub-path dispatch): hook
checks, tokenize, empty-prompt early success, prefill, decode loop,
finalization. -/
def real_eval (st : LLMContext) (prompt : Option String)
    (opts : Option llm_gen_opts_t) (o : EvalOracle) : EvalResult :=
  let st1 := { st with force_stats_fail := 0 }
  if prompt = some "CAUSE_EVAL_FAIL" then
    { ret := -1, st := some st1, sink := [], fed := [], wrote_stats := false }
  else
    let st2 := if prompt = some "CAUSE_STATS_FAIL"
      then { st1 with force_stats_fail := 1 } else st1
    let n_prompt := tokenize_prompt o.tok
    if n_prompt < 0 then
      { ret := TOKENIZE_ERROR, st := some st2, sink := [], fed := [],
        wrote_stats := false }
    else if n_prompt = 0 then
      { ret := 0, st := some { st2 with lastStats := empty_prompt_stats o },
        sink := [], fed := [], wrote_stats := true }
    else if o.prefill_ok = false then
      { ret := PREFILL_ERROR, st := some st2, sink := [], fed := [],
        wrote_stats := false }
    else
      match decode_loop o (max_tokens_of opts).toNat (init_loop_state o) with
      | .fail code sink fed =>
        { ret := code, st := some st2, sink := sink, fed := fed,
          wrote_stats := false }
      | .done canceled sf =>
        { ret := 0,
          st := some { st2 with lastStats := finalize_stats o n_prompt canceled sf },
          sink := sf.sink, fed := sf.fed, wrote_stats := true }

/-- Mirror of `llm_eval`.  `cb_nonnull` models the callback pointer's
nullity; a null handle or callback is the `-1` argument-error return with no
state mutation. -/
def llm_eval (h : Option LLMContext) (prompt : Option String)
    (opts : Option llm_gen_opts_t) (cb_nonnull : Bool) (o : EvalOracle) :
    EvalResult :=
  match h with
  | none => { ret := ARG_ERROR, st := none, sink := [], fed := [],
              wrote_stats := false }
  | some st0 =>
    if cb_nonnull = false then
      { ret := ARG_ERROR, st := some st0, sink := [], fed := [],
        wrote_stats := false }
    else
      let st := { st0 with cancelFlag := false }
      if st.model_nonnull = false then stub_eval st prompt
      else real_eval st prompt opts o

/-! Concrete fixtures used to exercise the model at specific inputs. -/

/-- A stub session exactly as `llm_init "stub"` creates it. -/
def stubCtx : LLMContext :=
  { force_stats_fail := 0, cancelFlag := false, model_nonnull := false,
    ctx_nonnull := false, n_ctx := 4096, n_gpu_layers := 0, lastStats := zeroStats }

/-- A real-model session exactly as a fully successful real-path `llm_init`
creates it. -/
def realCtx : LLMContext :=
  { force_stats_fail := 0, cancelFlag := false, model_nonnull := true,
    ctx_nonnull := true, n_ctx := 4096, n_gpu_layers := 0, lastStats := zeroStats }

/-- Init oracle on which every external allocation succeeds. -/
def initOracleOk : InitOracle :=
  { calloc_ok := true, model_load_ok := true, ctx_create_ok := true,
    calloc2_ok := true, env_ctx := none, apple_silicon := false }

/-- Tokenizer oracle yielding exactly one prompt token. -/
def tokOk1 : TokenizeOracle := { need0 := 1, malloc_ok := true, n2 := 1 }

/-- Benign eval oracle: one prompt token, argmax token 1 each step with a
2-byte piece, every decode succeeds, the clock ticks 1 ms per reading. -/
def oBase : EvalOracle :=
  { tok := tokOk1, prefill_ok := true,
    cancelAt := fun _ => false,
    logits := fun _ => some [1, 2],
    is_eog := fun _ => false,
    pieceLen := fun _ _ => 2,
    piece := fun _ _ => "xy",
    decode_ok := fun _ _ => true,
    clock := fun i => (i : ℚ),
    rss := fun _ => 0 }

/-- Eval oracle whose tokenizer `malloc` fails. -/
def oTokFail : EvalOracle :=
  { oBase with tok := { need0 := 1, malloc_ok := false, n2 := 0 } }

/-- Eval oracle whose prefill `llama_decode` fails. -/
def oPrefillFail : EvalOracle := { oBase with prefill_ok := false }

/-- Eval oracle whose per-token `llama_decode` step fails. -/
def oStepFail : EvalOracle := { oBase with decode_ok := fun _ _ => false }

/-- Eval oracle on which every prompt tokenizes to zero tokens. -/
def oTokZero : EvalOracle :=
  { oBase with tok := { need0 := 0, malloc_ok := true, n2 := 0 } }

/-- Eval oracle whose first sampled token converts to an empty piece and
later tokens to 3-byte pieces. -/
def oSkip : EvalOracle :=
  { oBase with pieceLen := fun i _ => if i = 0 then 0 else 3 }

/-- Eval oracle on which the cancel flag reads true at every loop boundary. -/
def oCancel : EvalOracle := { oBase with cancelAt := fun _ => true }

/-- Generation options asking for at most two tokens. -/
def opts2 : llm_gen_opts_t :=
  { context_length := 0, temperature := 0, top_p := 0, max_tokens := 2, seed := 0 }

/-- Value `force_stats_fail` holds after the hook handling of `llm_eval`
(cleared, then set to 1 exactly on the CAUSE_STATS_FAIL prompt). -/
def hook_flag (prompt : Option String) : Int :=
  if prompt = some "CAUSE_STATS_FAIL" then 1 else 0

/-! Helper lemmas about the decode loop and the eval bodies. -/

/-- The only way the decode loop fails is the decode-step `return -4`. -/
theorem decode_loop_fail_code (o : EvalOracle) :
    ∀ fuel s code sink fed,
      decode_loop o fuel s = .fail code sink fed → code = -4 := by
  intro fuel
  induction fuel with
  | zero => intro s code sink fed h; simp [decode_loop] at h
  | succ n ih =>
    intro s code sink fed h
    unfold decode_loop at h
    by_cases hc : o.cancelAt s.produced
    · simp [hc] at h
    · simp only [hc, if_false, Bool.false_eq_true] at h
      split at h
      · simp at h
      · split at h
        · simp at h
        · split at h
          · simp at h; omega
          · exact ih _ _ _ _ h

/-- `deliver_piece` does not change `produced`. -/
theorem deliver_piece_produced (o : EvalOracle) (s : LoopState) (tokv : Int) :
    (deliver_piece o s tokv).produced = s.produced := by
  unfold deliver_piece
  dsimp only
  split
  · split <;> rfl
  · rfl

/-- `deliver_piece` does not change `gen_tokens`. -/
theorem deliver_piece_gen_tokens (o : EvalOracle) (s : LoopState) (tokv : Int) :
    (deliver_piece o s tokv).gen_tokens = s.gen_tokens := by
  unfold deliver_piece
  dsimp only
  split
  · split <;> rfl
  · rfl

/-- `deliver_piece` does not change `fed`. -/
theorem deliver_piece_fed (o : EvalOracle) (s : LoopState) (tokv : Int) :
    (deliver_piece o s tokv).fed = s.fed := by
  unfold deliver_piece
  dsimp only
  split
  · split <;> rfl
  · rfl

/-- `deliver_piece` keeps `t_first` or sets it to the current clock reading
when it was still 0. -/
theorem deliver_piece_t_first (o : EvalOracle) (s : LoopState) (tokv : Int) :
    (deliver_piece o s tokv).t_first = s.t_first ∨
    (s.t_first = 0 ∧ (deliver_piece o s tokv).t_first = o.clock s.clockIdx) := by
  unfold deliver_piece
  dsimp only
  split
  · by_cases htf : s.t_first = 0
    · rw [if_pos htf]; exact Or.inr ⟨htf, rfl⟩
    · rw [if_neg htf]; exact Or.inl rfl
  · exact Or.inl rfl

/-- `deliver_piece` adds at most one sink entry. -/
theorem deliver_piece_sink_len (o : EvalOracle) (s : LoopState) (tokv : Int) :
    (deliver_piece o s tokv).sink.length ≤ s.sink.length + 1 := by
  unfold deliver_piece
  dsimp only
  split
  · split <;> simp
  · simp

/-- A piece conversion outside `0 < n < 512` leaves the state untouched: no
sink delivery and no timestamp. -/
theorem deliver_piece_skip (o : EvalOracle) (s : LoopState) (tokv : Int)
    (hn : ¬ (0 < o.pieceLen s.produced tokv ∧ o.pieceLen s.produced tokv < 512)) :
    deliver_piece o s tokv = s := by
  unfold deliver_piece
  exact if_neg hn

/-- `count_token` does not change `t_first`. -/
theorem count_token_t_first (o : EvalOracle) (s : LoopState) :
    (count_token o s).t_first = s.t_first := by
  unfold count_token
  dsimp only
  split <;> rfl

/-- `count_token` increments `gen_tokens`. -/
theorem count_token_gen_tokens (o : EvalOracle) (s : LoopState) :
    (count_token o s).gen_tokens = s.gen_tokens + 1 := by
  unfold count_token
  dsimp only
  split <;> rfl

/-- `count_token` does not change the sink. -/
theorem count_token_sink (o : EvalOracle) (s : LoopState) :
    (count_token o s).sink = s.sink := by
  unfold count_token
  dsimp only
  split <;> rfl

/-- `count_token` does not change the fed list. -/
theorem count_token_fed (o : EvalOracle) (s : LoopState) :
    (count_token o s).fed = s.fed := by
  unfold count_token
  dsimp only
  split <;> rfl

/-- The final `t_first` of a completed decode loop is still 0 or a clock
reading; with a clock bounded below by its first reading this is preserved
from the initial state. -/
theorem decode_loop_t_first (o : EvalOracle) (hm : ∀ i, o.clock 0 ≤ o.clock i) :
    ∀ fuel s canceled sf,
      decode_loop o fuel s = .done canceled sf →
      (s.t_first = 0 ∨ o.clock 0 ≤ s.t_first) →
      (sf.t_first = 0 ∨ o.clock 0 ≤ sf.t_first) := by
  intro fuel
  induction fuel with
  | zero =>
    intro s canceled sf h hs
    unfold decode_loop at h
    injection h with h1 h2
    subst h2
    exact hs
  | succ n ih =>
    intro s canceled sf h hs
    unfold decode_loop at h
    dsimp only at h
    by_cases hc : o.cancelAt s.produced = true
    · rw [if_pos hc] at h
      injection h with h1 h2; subst h2; exact hs
    · rw [if_neg hc] at h
      by_cases htk : sample_greedy (o.logits s.produced) = LLAMA_TOKEN_NULL
      · rw [if_pos htk] at h
        injection h with h1 h2; subst h2; exact hs
      · rw [if_neg htk] at h
        by_cases he : o.is_eog (sample_greedy (o.logits s.produced)) = true
        · rw [if_pos he] at h
          injection h with h1 h2; subst h2; exact hs
        · rw [if_neg he] at h
          by_cases hd : o.decode_ok s.produced
              (sample_greedy (o.logits s.produced)) = false
          · rw [if_pos hd] at h
            exact absurd h (by simp)
          · rw [if_neg hd] at h
            refine ih _ canceled sf h ?_
            rw [count_token_t_first]
            rcases deliver_piece_t_first o s
                (sample_greedy (o.logits s.produced)) with he1 | ⟨h0, he1⟩
            · rw [show ({ deliver_piece o s (sample_greedy (o.logits s.produced)) with
                  fed := (deliver_piece o s
                    (sample_greedy (o.logits s.produced))).fed ++
                    [sample_greedy (o.logits s.produced)] } : LoopState).t_first =
                  (deliver_piece o s
                    (sample_greedy (o.logits s.produced))).t_first from rfl, he1]
              exact hs
            · rw [show ({ deliver_piece o s (sample_greedy (o.logits s.produced)) with
                  fed := (deliver_piece o s
                    (sample_greedy (o.logits s.produced))).fed ++
                    [sample_greedy (o.logits s.produced)] } : LoopState).t_first =
                  (deliver_piece o s
                    (sample_greedy (o.logits s.produced))).t_first from rfl, he1]
              right
              exact hm _

/-- Along a completed decode loop the sink grows by at most one entry per
generated token. -/
theorem decode_loop_sink_len (o : EvalOracle) :
    ∀ fuel s canceled sf,
      decode_loop o fuel s = .done canceled sf →
      sf.sink.length + s.gen_tokens ≤ sf.gen_tokens + s.sink.length := by
  intro fuel
  induction fuel with
  | zero =>
    intro s canceled sf h
    unfold decode_loop at h
    injection h with h1 h2
    subst h2
    omega
  | succ n ih =>
    intro s canceled sf h
    unfold decode_loop at h
    dsimp only at h
    by_cases hc : o.cancelAt s.produced = true
    · rw [if_pos hc] at h
      injection h with h1 h2; subst h2; omega
    · rw [if_neg hc] at h
      by_cases htk : sample_greedy (o.logits s.produced) = LLAMA_TOKEN_NULL
      · rw [if_pos htk] at h
        injection h with h1 h2; subst h2; omega
      · rw [if_neg htk] at h
        by_cases he : o.is_eog (sample_greedy (o.logits s.produced)) = true
        · rw [if_pos he] at h
          injection h with h1 h2; subst h2; omega
        · rw [if_neg he] at h
          by_cases hd : o.decode_ok s.produced
              (sample_greedy (o.logits s.produced)) = false
          · rw [if_pos hd] at h
            exact absurd h (by simp)
          · rw [if_neg hd] at h
            have hrec := ih _ canceled sf h
            rw [count_token_sink, count_token_gen_tokens] at hrec
            have hsink : ({ deliver_piece o s
                  (sample_greedy (o.logits s.produced)) with
                fed := (deliver_piece o s
                  (sample_greedy (o.logits s.produced))).fed ++
                  [sample_greedy (o.logits s.produced)] } : LoopState).sink =
                (deliver_piece o s (sample_greedy (o.logits s.produced))).sink :=
              rfl
            have hgen : ({ deliver_piece o s
                  (sample_greedy (o.logits s.produced)) with
                fed := (deliver_piece o s
                  (sample_greedy (o.logits s.produced))).fed ++
                  [sample_greedy (o.logits s.produced)] } : LoopState).gen_tokens =
                (deliver_piece o s (sample_greedy (o.logits s.produced))).gen_tokens :=
              rfl
            rw [hsink, hgen, deliver_piece_gen_tokens] at hrec
            have hlen := deliver_piece_sink_len o s
                (sample_greedy (o.logits s.produced))
            omega

/-- C-style truncation preserves non-negativity. -/
theorem cTrunc_nonneg (q : ℚ) (h : 0 ≤ q) : 0 ≤ cTrunc q := by
  unfold cTrunc
  rw [if_neg (not_lt.mpr h)]
  exact Int.floor_nonneg.mpr h

/-- C-style truncation of zero is zero. -/
theorem cTrunc_zero : cTrunc 0 = 0 := by
  unfold cTrunc
  norm_num

/-- Metric sanity of the finalized snapshot: zero completion tokens force
zero TTFB and throughput, and with a monotone clock all derived durations
are non-negative. -/
theorem finalize_stats_metrics (o : EvalOracle) (n_prompt : Int)
    (canceled : Bool) (sf : LoopState)
    (hm : ∀ i, o.clock 0 ≤ o.clock i)
    (htf : sf.t_first = 0 ∨ o.clock 0 ≤ sf.t_first) :
    ((finalize_stats o n_prompt canceled sf).completion_tokens = 0 →
      (finalize_stats o n_prompt canceled sf).tok_per_sec = 0 ∧
      (finalize_stats o n_prompt canceled sf).ttfb_ms = 0) ∧
    0 ≤ (finalize_stats o n_prompt canceled sf).ttfb_ms ∧
    0 ≤ (finalize_stats o n_prompt canceled sf).tok_per_sec ∧
    0 ≤ (finalize_stats o n_prompt canceled sf).total_ms := by
  unfold finalize_stats
  dsimp only
  refine ⟨?_, ?_, ?_, ?_⟩
  · intro h0
    have hg0 : sf.gen_tokens = 0 := by exact_mod_cast h0
    simp [hg0, cTrunc_zero]
  · by_cases hcond : 0 < sf.gen_tokens ∧ 0 < sf.t_first
    · rw [if_pos hcond]
      rcases htf with htf | htf
      · rw [htf] at hcond
        exact absurd hcond.2 (lt_irrefl 0)
      · exact cTrunc_nonneg _ (sub_nonneg.mpr htf)
    · rw [if_neg hcond]
      rw [cTrunc_zero]
  · by_cases hcond : 0 < sf.gen_tokens ∧
        0 < (if 0 < sf.gen_tokens ∧ sf.t_first < o.clock sf.clockIdx
             then o.clock sf.clockIdx - sf.t_first else 0)
    · rw [if_pos hcond]
      refine div_nonneg (by positivity) ?_
      have := hcond.2
      linarith
    · rw [if_neg hcond]
  · exact cTrunc_nonneg _ (sub_nonneg.mpr (hm sf.clockIdx))

/-- Metric sanity of the empty-prompt snapshot. -/
theorem empty_prompt_stats_metrics (o : EvalOracle)
    (hm : ∀ i, o.clock 0 ≤ o.clock i) :
    (empty_prompt_stats o).ttfb_ms = 0 ∧
    (empty_prompt_stats o).tok_per_sec = 0 ∧
    0 ≤ (empty_prompt_stats o).total_ms := by
  unfold empty_prompt_stats
  exact ⟨rfl, rfl, cTrunc_nonneg _ (sub_nonneg.mpr (hm 1))⟩

/-- Complete case analysis of the stub path of `llm_eval`. -/
theorem stub_eval_spec (st : LLMContext) (prompt : Option String)
    (r : EvalResult) (hr : stub_eval st prompt = r) :
    (prompt = some "CAUSE_EVAL_FAIL" ∧
      r = { ret := -1, st := some { st with force_stats_fail := 0 },
            sink := [], fed := [], wrote_stats := false }) ∨
    (prompt ≠ some "CAUSE_EVAL_FAIL" ∧
      r = { ret := 0,
            st := some { st with force_stats_fail := hook_flag prompt,
                                 lastStats := stub_stats },
            sink := ["ok"], fed := [], wrote_stats := true }) := by
  unfold stub_eval at hr
  by_cases h1 : prompt = some "CAUSE_EVAL_FAIL"
  · left
    rw [if_pos h1] at hr
    exact ⟨h1, hr.symm⟩
  · right
    refine ⟨h1, ?_⟩
    rw [if_neg h1] at hr
    by_cases h2 : prompt = some "CAUSE_STATS_FAIL"
    · rw [if_pos h2] at hr
      simp only [hook_flag, if_pos h2]
      exact hr.symm
    · rw [if_neg h2] at hr
      simp only [hook_flag, if_neg h2]
      exact hr.symm

/-- Complete case analysis of the real-model path of `llm_eval`. -/
theorem real_eval_spec (st : LLMContext) (prompt : Option String)
    (opts : Option llm_gen_opts_t) (o : EvalOracle)
    (r : EvalResult) (hr : real_eval st prompt opts o = r) :
    (prompt = some "CAUSE_EVAL_FAIL" ∧
      r = { ret := -1, st := some { st with force_stats_fail := 0 },
            sink := [], fed := [], wrote_stats := false }) ∨
    (prompt ≠ some "CAUSE_EVAL_FAIL" ∧ tokenize_prompt o.tok < 0 ∧
      r = { ret := TOKENIZE_ERROR,
            st := some { st with force_stats_fail := hook_flag prompt },
            sink := [], fed := [], wrote_stats := false }) ∨
    (prompt ≠ some "CAUSE_EVAL_FAIL" ∧ tokenize_prompt o.tok = 0 ∧
      r = { ret := 0,
            st := some { st with force_stats_fail := hook_flag prompt,
                                 lastStats := empty_prompt_stats o },
            sink := [], fed := [], wrote_stats := true }) ∨
    (prompt ≠ some "CAUSE_EVAL_FAIL" ∧ 0 < tokenize_prompt o.tok ∧
      o.prefill_ok = false ∧
      r = { ret := PREFILL_ERROR,
            st := some { st with force_stats_fail := hook_flag prompt },
            sink := [], fed := [], wrote_stats := false }) ∨
    (prompt ≠ some "CAUSE_EVAL_FAIL" ∧ 0 < tokenize_prompt o.tok ∧
      o.prefill_ok = true ∧
      ∃ sink fed,
        decode_loop o (max_tokens_of opts).toNat (init_loop_state o) =
          .fail (-4) sink fed ∧
        r = { ret := -4,
              st := some { st with force_stats_fail := hook_flag prompt },
              sink := sink, fed := fed, wrote_stats := false }) ∨
    (prompt ≠ some "CAUSE_EVAL_FAIL" ∧ 0 < tokenize_prompt o.tok ∧
      o.prefill_ok = true ∧
      ∃ canceled sf,
        decode_loop o (max_tokens_of opts).toNat (init_loop_state o) =
          .done canceled sf ∧
        r = { ret := 0,
              st := some { st with
                           force_stats_fail := hook_flag prompt,
                           lastStats :=
                             finalize_stats o (tokenize_prompt o.tok) canceled sf },
              sink := sf.sink, fed := sf.fed, wrote_stats := true }) := by
  unfold real_eval at hr
  by_cases h1 : prompt = some "CAUSE_EVAL_FAIL"
  · left
    rw [if_pos h1] at hr
    exact ⟨h1, hr.symm⟩
  · rw [if_neg h1] at hr
    have hst2 : (if prompt = some "CAUSE_STATS_FAIL"
        then ({ force_stats_fail := 1, cancelFlag := st.cancelFlag,
                model_nonnull := st.model_nonnull, ctx_nonnull := st.ctx_nonnull,
                n_ctx := st.n_ctx, n_gpu_layers := st.n_gpu_layers,
                lastStats := st.lastStats } : LLMContext)
        else { force_stats_fail := 0, cancelFlag := st.cancelFlag,
               model_nonnull := st.model_nonnull, ctx_nonnull := st.ctx_nonnull,
               n_ctx := st.n_ctx, n_gpu_layers := st.n_gpu_layers,
               lastStats := st.lastStats }) =
        { st with force_stats_fail := hook_flag prompt } := by
      unfold hook_flag
      by_cases h2 : prompt = some "CAUSE_STATS_FAIL"
      · rw [if_pos h2, if_pos h2]
      · rw [if_neg h2, if_neg h2]
    rw [hst2] at hr
    by_cases h2 : tokenize_prompt o.tok < 0
    · right; left
      rw [if_pos h2] at hr
      exact ⟨h1, h2, hr.symm⟩
    · rw [if_neg h2] at hr
      by_cases h3 : tokenize_prompt o.tok = 0
      · right; right; left
        rw [if_pos h3] at hr
        exact ⟨h1, h3, hr.symm⟩
      · have h4 : 0 < tokenize_prompt o.tok := by omega
        rw [if_neg h3] at hr
        by_cases h5 : o.prefill_ok = false
        · right; right; right; left
          rw [if_pos h5] at hr
          exact ⟨h1, h4, h5, hr.symm⟩
        · have h5' : o.prefill_ok = true := by
            cases hb : o.prefill_ok
            · exact absurd hb h5
            · rfl
          rw [if_neg h5] at hr
          cases hl : decode_loop o (max_tokens_of opts).toNat (init_loop_state o) with
          | fail code sink fed =>
            right; right; right; right; left
            have hc : code = -4 := decode_loop_fail_code o _ _ _ _ _ hl
            rw [hl] at hr
            subst hc
            exact ⟨h1, h4, h5', sink, fed, rfl, hr.symm⟩
          | done canceled sf =>
            right; right; right; right; right
            rw [hl] at hr
            exact ⟨h1, h4, h5', canceled, sf, rfl, hr.symm⟩

/-- Complete top-level case analysis of `llm_eval`. -/
theorem llm_eval_spec (h : Option LLMContext) (prompt : Option String)
    (opts : Option llm_gen_opts_t) (cbn : Bool) (o : EvalOracle)
    (r : EvalResult) (hr : llm_eval h prompt opts cbn o = r) :
    (h = none ∧
      r = { ret := ARG_ERROR, st := none, sink := [], fed := [],
            wrote_stats := false }) ∨
    (∃ st0, h = some st0 ∧ cbn = false ∧
      r = { ret := ARG_ERROR, st := some st0, sink := [], fed := [],
            wrote_stats := false }) ∨
    (∃ st0, h = some st0 ∧ cbn = true ∧ st0.model_nonnull = false ∧
      r = stub_eval { st0 with cancelFlag := false } prompt) ∨
    (∃ st0, h = some st0 ∧ cbn = true ∧ st0.model_nonnull = true ∧
      r = real_eval { st0 with cancelFlag := false } prompt opts o) := by
  cases h with
  | none =>
    unfold llm_eval at hr
    exact Or.inl ⟨rfl, hr.symm⟩
  | some st0 =>
    simp only [llm_eval] at hr
    cases hcb : cbn with
    | false =>
      rw [hcb, if_pos rfl] at hr
      exact Or.inr (Or.inl ⟨st0, rfl, rfl, hr.symm⟩)
    | true =>
      rw [hcb, if_neg (by simp)] at hr
      cases hm : st0.model_nonnull with
      | false =>
        right; right; left
        refine ⟨st0, rfl, rfl, hm, ?_⟩
        rw [if_pos (show ({ st0 with cancelFlag := false } :
            LLMContext).model_nonnull = false from hm)] at hr
        exact hr.symm
      | true =>
        right; right; right
        refine ⟨st0, rfl, rfl, hm, ?_⟩
        rw [if_neg (show ¬ ({ st0 with cancelFlag := false } :
            LLMContext).model_nonnull = false from by
          show ¬ st0.model_nonnull = false
          rw [hm]; simp)] at hr
        exact hr.symm

/-! Claim theorems. -/

/-- C1 (code bug): after a real-path `llm_init`/`llm_free` pair the backend
refcount is back at 0, and the stub-path `llm_init` indeed performs no
increment — but `llm_free` decrements the counter unconditionally, so freeing
a stub handle drives `g_backend_refs` from 0 to `-1` instead of leaving it
untouched: the claimed round-trip/no-decrement property fails on a stub
`init`/`free` pair. -/
theorem c1_stub_free_decrements_refcount :
    (llm_init 0 (some "stub") initOracleOk).2 = 0 ∧
    (llm_init 0 (some "model.gguf") initOracleOk).2 = 1 ∧
    llm_free (llm_init 0 (some "model.gguf") initOracleOk).2
      (llm_init 0 (some "model.gguf") initOracleOk).1 = 0 ∧
    ((llm_init 0 (some "stub") initOracleOk).1).isSome = true ∧
    llm_free 0 (llm_init 0 (some "stub") initOracleOk).1 = -1 := by
  decide

/-- C2: whenever `llm_eval` returns success (0) — stub run, empty-prompt run,
completed or canceled decode run — the stored snapshot satisfies
`total_tokens = prompt_tokens + completion_tokens`. -/
theorem c2_total_tokens_invariant (h : Option LLMContext)
    (prompt : Option String) (opts : Option llm_gen_opts_t) (cbn : Bool)
    (o : EvalOracle) (st' : LLMContext)
    (hret : (llm_eval h prompt opts cbn o).ret = 0)
    (hst : (llm_eval h prompt opts cbn o).st = some st') :
    st'.lastStats.total_tokens =
      st'.lastStats.prompt_tokens + st'.lastStats.completion_tokens := by
  rcases llm_eval_spec h prompt opts cbn o _ rfl with
      ⟨hh, hre⟩ | ⟨st0, hh, hcb, hre⟩ | ⟨st0, hh, hcb, hmn, hre⟩ |
      ⟨st0, hh, hcb, hmn, hre⟩
  · rw [hre] at hret
    norm_num [ARG_ERROR] at hret
  · rw [hre] at hret
    norm_num [ARG_ERROR] at hret
  · rcases stub_eval_spec _ prompt _ hre.symm with ⟨hp, hr2⟩ | ⟨hp, hr2⟩
    · rw [hr2] at hret
      norm_num at hret
    · rw [hr2] at hst
      dsimp only at hst
      injection hst with he
      subst he
      norm_num [stub_stats]
  · rcases real_eval_spec _ prompt opts o _ hre.symm with
        ⟨hp, hr2⟩ | ⟨hp, ht, hr2⟩ | ⟨hp, ht, hr2⟩ | ⟨hp, ht, hpre, hr2⟩ |
        ⟨hp, ht, hpre, sink, fed, hl, hr2⟩ | ⟨hp, ht, hpre, canceled, sf, hl, hr2⟩
    · rw [hr2] at hret
      norm_num at hret
    · rw [hr2] at hret
      norm_num [TOKENIZE_ERROR] at hret
    · rw [hr2] at hst
      dsimp only at hst
      injection hst with he
      subst he
      norm_num [empty_prompt_stats]
    · rw [hr2] at hret
      norm_num [PREFILL_ERROR] at hret
    · rw [hr2] at hret
      norm_num at hret
    · rw [hr2] at hst
      dsimp only at hst
      injection hst with he
      subst he
      rfl

/-- C2 witness: a concrete two-token run where the snapshot satisfies the
token-accounting invariant. -/
theorem c2_total_tokens_invariant_witness :
    ∃ st', (llm_eval (some realCtx) (some "hi") (some opts2) true oBase).st =
      some st' ∧
    st'.lastStats.total_tokens =
      st'.lastStats.prompt_tokens + st'.lastStats.completion_tokens := by
  refine ⟨_, rfl, ?_⟩
  exact c2_total_tokens_invariant (some realCtx) (some "hi") (some opts2) true
    oBase _ (by decide) rfl

/-- C3: a cancellation flag observed set at a decode-loop iteration boundary
stops the loop at once with no further iteration (the state is returned
unchanged), and a loop that exited canceled still makes `llm_eval` return
success (0) while the finalized snapshot's success flag is 0. -/
theorem c3_cancellation (o : EvalOracle) :
    (∀ (fuel : Nat) (s : LoopState), o.cancelAt s.produced = true →
      decode_loop o (fuel + 1) s = .done true s) ∧
    (∀ (st : LLMContext) (prompt : Option String)
        (opts : Option llm_gen_opts_t) (sf : LoopState),
      st.model_nonnull = true →
      prompt ≠ some "CAUSE_EVAL_FAIL" →
      0 < tokenize_prompt o.tok →
      o.prefill_ok = true →
      decode_loop o (max_tokens_of opts).toNat (init_loop_state o) =
        .done true sf →
      (llm_eval (some st) prompt opts true o).ret = 0 ∧
      ∃ st', (llm_eval (some st) prompt opts true o).st = some st' ∧
        st'.lastStats.success = 0) := by
  constructor
  · intro fuel s hc
    unfold decode_loop
    rw [if_pos hc]
  · intro st prompt opts sf hmod hp ht hpre hloop
    rcases llm_eval_spec (some st) prompt opts true o _ rfl with
        ⟨hh, _⟩ | ⟨st0, _, hcb, _⟩ | ⟨st0, hh, _, hmn, _⟩ | ⟨st0, hh, _, hmn, hre⟩
    · simp at hh
    · simp at hcb
    · injection hh with hh0
      subst hh0
      rw [hmod] at hmn
      simp at hmn
    · injection hh with hh0
      subst hh0
      rcases real_eval_spec _ prompt opts o _ hre.symm with
          ⟨hp', _⟩ | ⟨_, ht', _⟩ | ⟨_, ht', _⟩ | ⟨_, _, hpre', _⟩ |
          ⟨_, _, _, sink, fed, hl, _⟩ | ⟨_, _, _, canceled, sf0, hl, hr2⟩
      · exact absurd hp' hp
      · omega
      · omega
      · rw [hpre] at hpre'
        simp at hpre'
      · rw [hloop] at hl
        simp at hl
      · rw [hloop] at hl
        injection hl with hc1 hc2
        subst hc1
        subst hc2
        refine ⟨?_, ?_⟩
        · rw [hr2]
        · exact ⟨_, by rw [hr2], rfl⟩

/-- C3 witness: with a cancel flag that reads true at the first boundary, the
loop stops immediately, the call returns 0 and the snapshot is marked
unsuccessful. -/
theorem c3_cancellation_witness :
    decode_loop oCancel (0 + 1) (init_loop_state oCancel) =
      .done true (init_loop_state oCancel) ∧
    (llm_eval (some realCtx) (some "hi") none true oCancel).ret = 0 ∧
    ∃ st', (llm_eval (some realCtx) (some "hi") none true oCancel).st =
        some st' ∧ st'.lastStats.success = 0 := by
  refine ⟨(c3_cancellation oCancel).1 0 (init_loop_state oCancel) (by decide),
    ?_, ?_⟩
  · exact ((c3_cancellation oCancel).2 realCtx (some "hi") none
      (init_loop_state oCancel) rfl (by decide) (by decide) rfl (by decide)).1
  · exact ((c3_cancellation oCancel).2 realCtx (some "hi") none
      (init_loop_state oCancel) rfl (by decide) (by decide) rfl (by decide)).2

/-- C4: `llm_eval` assigns the stored stats snapshot exactly when it returns
success (0); on every non-zero return the previously stored snapshot is left
unchanged. -/
theorem c4_stats_written_iff_success (st : LLMContext) (prompt : Option String)
    (opts : Option llm_gen_opts_t) (cbn : Bool) (o : EvalOracle) :
    ((llm_eval (some st) prompt opts cbn o).wrote_stats = true ↔
      (llm_eval (some st) prompt opts cbn o).ret = 0) ∧
    ((llm_eval (some st) prompt opts cbn o).ret ≠ 0 →
      ∃ st', (llm_eval (some st) prompt opts cbn o).st = some st' ∧
        st'.lastStats = st.lastStats) := by
  rcases llm_eval_spec (some st) prompt opts cbn o _ rfl with
      ⟨hh, _⟩ | ⟨st0, hh, hcb, hre⟩ | ⟨st0, hh, hcb, hre0⟩ | ⟨st0, hh, hcb, hre0⟩
  · simp at hh
  · injection hh with hh0
    subst hh0
    rw [hre]
    constructor
    · simp [ARG_ERROR]
    · intro _
      exact ⟨_, rfl, rfl⟩
  · obtain ⟨hmn, hre⟩ := hre0
    injection hh with hh0
    subst hh0
    rcases stub_eval_spec _ prompt _ hre.symm with ⟨hp, hr2⟩ | ⟨hp, hr2⟩ <;>
      rw [hr2]
    · constructor
      · simp
      · intro _
        exact ⟨_, rfl, rfl⟩
    · constructor
      · simp
      · intro h0
        exact absurd rfl h0
  · obtain ⟨hmn, hre⟩ := hre0
    injection hh with hh0
    subst hh0
    rcases real_eval_spec _ prompt opts o _ hre.symm with
        ⟨hp, hr2⟩ | ⟨hp, ht, hr2⟩ | ⟨hp, ht, hr2⟩ | ⟨hp, ht, hpre, hr2⟩ |
        ⟨hp, ht, hpre, sink, fed, hl, hr2⟩ |
        ⟨hp, ht, hpre, canceled, sf, hl, hr2⟩ <;> rw [hr2]
    · exact ⟨by simp, fun _ => ⟨_, rfl, rfl⟩⟩
    · exact ⟨by simp [TOKENIZE_ERROR], fun _ => ⟨_, rfl, rfl⟩⟩
    · exact ⟨by simp, fun h0 => absurd rfl h0⟩
    · exact ⟨by simp [PREFILL_ERROR], fun _ => ⟨_, rfl, rfl⟩⟩
    · exact ⟨by simp, fun _ => ⟨_, rfl, rfl⟩⟩
    · exact ⟨by simp, fun h0 => absurd rfl h0⟩

/-- C4 witness: on the forced eval-failure hook the call fails and the prior
snapshot survives; on a plain stub run the write happened and the return is
0. -/
theorem c4_stats_written_iff_success_witness :
    (∃ st', (llm_eval (some stubCtx) (some "CAUSE_EVAL_FAIL") none true
        oBase).st = some st' ∧ st'.lastStats = stubCtx.lastStats) ∧
    ((llm_eval (some stubCtx) (some "hello") none true oBase).wrote_stats =
      true) := by
  constructor
  · exact (c4_stats_written_iff_success stubCtx (some "CAUSE_EVAL_FAIL") none
      true oBase).2 (by decide)
  · exact (c4_stats_written_iff_success stubCtx (some "hello") none true
      oBase).1.mpr (by decide)

/-- C5: the four stage failure codes of `llm_eval` — invalid arguments,
tokenization failure, prefill failure, decode-step failure — are realized by
concrete runs and are pairwise distinct. -/
theorem c5_distinct_stage_codes :
    (llm_eval none (some "x") none true oBase).ret = ARG_ERROR ∧
    (llm_eval (some realCtx) (some "x") none true oTokFail).ret =
      TOKENIZE_ERROR ∧
    (llm_eval (some realCtx) (some "x") none true oPrefillFail).ret =
      PREFILL_ERROR ∧
    (llm_eval (some realCtx) (some "x") none true oStepFail).ret =
      DECODE_STEP_ERROR ∧
    ARG_ERROR ≠ TOKENIZE_ERROR ∧ ARG_ERROR ≠ PREFILL_ERROR ∧
    ARG_ERROR ≠ DECODE_STEP_ERROR ∧ TOKENIZE_ERROR ≠ PREFILL_ERROR ∧
    TOKENIZE_ERROR ≠ DECODE_STEP_ERROR ∧ PREFILL_ERROR ≠ DECODE_STEP_ERROR := by
  decide

/-- C6 counterexample: under a tokenizer oracle on which every prompt
(including the diagnostic hook string) tokenizes to zero tokens, `llm_eval`
on a real-model session with prompt "CAUSE_EVAL_FAIL" returns `-1`, not
success — the hook check runs before tokenization, so the claim as stated
fails for that prompt. -/
theorem c6_zero_token_counterexample :
    tokenize_prompt oTokZero.tok = 0 ∧
    realCtx.model_nonnull = true ∧
    (llm_eval (some realCtx) (some "CAUSE_EVAL_FAIL") none true oTokZero).ret =
      -1 ∧
    ¬ (llm_eval (some realCtx) (some "CAUSE_EVAL_FAIL") none true
        oTokZero).ret = 0 := by
  decide

/-- C6 (amended): for every prompt other than the forced-eval-failure hook
"CAUSE_EVAL_FAIL" that tokenizes to zero tokens, `llm_eval` on a real-model
session returns 0, streams nothing, and stores a snapshot with success 1 and
all token counts, TTFB and throughput zero. -/
theorem c6_empty_prompt_success (st : LLMContext) (prompt : Option String)
    (opts : Option llm_gen_opts_t) (o : EvalOracle)
    (hmod : st.model_nonnull = true)
    (hp : prompt ≠ some "CAUSE_EVAL_FAIL")
    (ht : tokenize_prompt o.tok = 0) :
    (llm_eval (some st) prompt opts true o).ret = 0 ∧
    (llm_eval (some st) prompt opts true o).sink = [] ∧
    ∃ st', (llm_eval (some st) prompt opts true o).st = some st' ∧
      st'.lastStats.success = 1 ∧ st'.lastStats.prompt_tokens = 0 ∧
      st'.lastStats.completion_tokens = 0 ∧ st'.lastStats.total_tokens = 0 ∧
      st'.lastStats.ttfb_ms = 0 ∧ st'.lastStats.tok_per_sec = 0 := by
  rcases llm_eval_spec (some st) prompt opts true o _ rfl with
      ⟨hh, _⟩ | ⟨_, _, hcb, _⟩ | ⟨st0, hh, _, hmn, _⟩ | ⟨st0, hh, _, hmn, hre⟩
  · simp at hh
  · simp at hcb
  · injection hh with hh0
    subst hh0
    rw [hmod] at hmn
    simp at hmn
  · injection hh with hh0
    subst hh0
    rcases real_eval_spec _ prompt opts o _ hre.symm with
        ⟨hp', _⟩ | ⟨_, ht', _⟩ | ⟨_, _, hr2⟩ | ⟨_, ht', _, _⟩ |
        ⟨_, ht', _, sink, fed, _, _⟩ | ⟨_, ht', _, canceled, sf, _, _⟩
    · exact absurd hp' hp
    · omega
    · rw [hr2]
      exact ⟨rfl, rfl, _, rfl, rfl, rfl, rfl, rfl, rfl, rfl⟩
    · omega
    · omega
    · omega

/-- C6 witness: a concrete empty-prompt run on a real-model session. -/
theorem c6_empty_prompt_success_witness :
    (llm_eval (some realCtx) (some "") none true oTokZero).ret = 0 ∧
    (llm_eval (some realCtx) (some "") none true oTokZero).sink = [] ∧
    ∃ st', (llm_eval (some realCtx) (some "") none true oTokZero).st =
        some st' ∧
      st'.lastStats.success = 1 ∧ st'.lastStats.prompt_tokens = 0 ∧
      st'.lastStats.completion_tokens = 0 ∧ st'.lastStats.total_tokens = 0 ∧
      st'.lastStats.ttfb_ms = 0 ∧ st'.lastStats.tok_per_sec = 0 := by
  exact c6_empty_prompt_success realCtx (some "") none oTokZero rfl
    (by decide) (by decide)

/-- C7: every snapshot stored by a success-returning `llm_eval` satisfies:
zero completion tokens force zero throughput and zero TTFB, and (for a
monotone clock, as CLOCK_MONOTONIC guarantees) TTFB, throughput and total
duration are all non-negative. -/
theorem c7_metric_sanity (h : Option LLMContext) (prompt : Option String)
    (opts : Option llm_gen_opts_t) (cbn : Bool) (o : EvalOracle)
    (st' : LLMContext)
    (hmono : ∀ i j : Nat, i ≤ j → o.clock i ≤ o.clock j)
    (hret : (llm_eval h prompt opts cbn o).ret = 0)
    (hst : (llm_eval h prompt opts cbn o).st = some st') :
    (st'.lastStats.completion_tokens = 0 →
      st'.lastStats.tok_per_sec = 0 ∧ st'.lastStats.ttfb_ms = 0) ∧
    0 ≤ st'.lastStats.ttfb_ms ∧ 0 ≤ st'.lastStats.tok_per_sec ∧
    0 ≤ st'.lastStats.total_ms := by
  have hm : ∀ i, o.clock 0 ≤ o.clock i := fun i => hmono 0 i (Nat.zero_le i)
  rcases llm_eval_spec h prompt opts cbn o _ rfl with
      ⟨hh, hre⟩ | ⟨st0, hh, hcb, hre⟩ | ⟨st0, hh, hcb, hre0⟩ |
      ⟨st0, hh, hcb, hre0⟩
  · rw [hre] at hret
    norm_num [ARG_ERROR] at hret
  · rw [hre] at hret
    norm_num [ARG_ERROR] at hret
  · obtain ⟨hmn, hre⟩ := hre0
    rcases stub_eval_spec _ prompt _ hre.symm with ⟨hp, hr2⟩ | ⟨hp, hr2⟩
    · rw [hr2] at hret
      norm_num at hret
    · rw [hr2] at hst
      dsimp only at hst
      injection hst with he
      subst he
      refine ⟨?_, ?_, ?_, ?_⟩ <;> norm_num [stub_stats]
  · obtain ⟨hmn, hre⟩ := hre0
    rcases real_eval_spec _ prompt opts o _ hre.symm with
        ⟨hp, hr2⟩ | ⟨hp, ht, hr2⟩ | ⟨hp, ht, hr2⟩ | ⟨hp, ht, hpre, hr2⟩ |
        ⟨hp, ht, hpre, sink, fed, hl, hr2⟩ |
        ⟨hp, ht, hpre, canceled, sf, hl, hr2⟩
    · rw [hr2] at hret
      norm_num at hret
    · rw [hr2] at hret
      norm_num [TOKENIZE_ERROR] at hret
    · rw [hr2] at hst
      dsimp only at hst
      injection hst with he
      subst he
      obtain ⟨he1, he2, he3⟩ := empty_prompt_stats_metrics o hm
      exact ⟨fun _ => ⟨he2, he1⟩, le_of_eq he1.symm, le_of_eq he2.symm, he3⟩
    · rw [hr2] at hret
      norm_num [PREFILL_ERROR] at hret
    · rw [hr2] at hret
      norm_num at hret
    · rw [hr2] at hst
      dsimp only at hst
      injection hst with he
      subst he
      have htf := decode_loop_t_first o hm _ _ _ _ hl (Or.inl rfl)
      exact finalize_stats_metrics o (tokenize_prompt o.tok) canceled sf hm htf

/-- C7 witness: a concrete two-token real-model run with the tick-per-read
clock satisfies the metric sanity conditions. -/
theorem c7_metric_sanity_witness :
    ∃ st', (llm_eval (some realCtx) (some "hi") (some opts2) true oBase).st =
        some st' ∧
      ((st'.lastStats.completion_tokens = 0 →
        st'.lastStats.tok_per_sec = 0 ∧ st'.lastStats.ttfb_ms = 0) ∧
      0 ≤ st'.lastStats.ttfb_ms ∧ 0 ≤ st'.lastStats.tok_per_sec ∧
      0 ≤ st'.lastStats.total_ms) := by
  refine ⟨_, rfl, ?_⟩
  exact c7_metric_sanity (some realCtx) (some "hi") (some opts2) true oBase _
    (fun i j hij => by exact_mod_cast Nat.cast_le.mpr hij) (by decide) rfl

/-- C8: `llm_stats` fails exactly on a null handle, a null output pointer, or
a set forced-stats-failure flag; otherwise it copies the stored snapshot,
which is all zeros on a fresh handle; and the stub CAUSE_STATS_FAIL hook
makes `llm_eval` return success while the following `llm_stats` fails. -/
theorem c8_stats_failure_characterization :
    (∀ (h : Option LLMContext) (onull : Bool),
      llm_stats h onull = none ↔
        (h = none ∨ onull = true ∨
          ∃ st, h = some st ∧ st.force_stats_fail ≠ 0)) ∧
    (∀ st : LLMContext, st.force_stats_fail = 0 →
      llm_stats (some st) false = some st.lastStats) ∧
    (∀ (refs : Int) (path : Option String) (io : InitOracle)
        (st : LLMContext) (refs' : Int),
      llm_init refs path io = (some st, refs') → st.lastStats = zeroStats) ∧
    (∀ (st : LLMContext) (opts : Option llm_gen_opts_t) (o : EvalOracle),
      st.model_nonnull = false →
      (llm_eval (some st) (some "CAUSE_STATS_FAIL") opts true o).ret = 0 ∧
      ∀ st', (llm_eval (some st) (some "CAUSE_STATS_FAIL") opts true o).st =
          some st' → llm_stats (some st') false = none) := by
  refine ⟨?_, ?_, ?_, ?_⟩
  · intro h onull
    cases h with
    | none => simp [llm_stats]
    | some ctx =>
      by_cases ho : onull = true
      · simp [llm_stats, ho]
      · by_cases hf : ctx.force_stats_fail = 0
        · simp [llm_stats, ho, hf]
        · simp [llm_stats, ho, hf]
  · intro st h0
    simp [llm_stats, h0]
  · intro refs path io st refs' h
    cases path with
    | none => simp [llm_init] at h
    | some p =>
      simp only [llm_init] at h
      by_cases h1 : p = ""
      · rw [if_pos h1] at h
        simp at h
      · rw [if_neg h1] at h
        by_cases h2 : p = "stub" ∨ p = "/dev/null"
        · rw [if_pos h2] at h
          by_cases h3 : io.calloc_ok = false
          · rw [if_pos h3] at h
            simp at h
          · rw [if_neg h3] at h
            injection h with h4 h5
            injection h4 with h6
            rw [← h6]
        · rw [if_neg h2] at h
          by_cases h3 : io.model_load_ok = false
          · rw [if_pos h3] at h
            simp at h
          · rw [if_neg h3] at h
            by_cases h4 : io.ctx_create_ok = false
            · rw [if_pos h4] at h
              simp at h
            · rw [if_neg h4] at h
              by_cases h5 : io.calloc2_ok = false
              · rw [if_pos h5] at h
                simp at h
              · rw [if_neg h5] at h
                injection h with h6 h7
                injection h6 with h8
                rw [← h8]
  · intro st opts o hstub
    rcases llm_eval_spec (some st) (some "CAUSE_STATS_FAIL") opts true o _ rfl
        with ⟨hh, _⟩ | ⟨_, _, hcb, _⟩ | ⟨st0, hh, _, hmn, hre⟩ |
        ⟨st0, hh, _, hmn, _⟩
    · simp at hh
    · simp at hcb
    · injection hh with hh0
      subst hh0
      rcases stub_eval_spec _ (some "CAUSE_STATS_FAIL") _ hre.symm with
          ⟨hp, _⟩ | ⟨hp, hr2⟩
      · exact absurd hp (by decide)
      · rw [hr2]
        refine ⟨rfl, ?_⟩
        intro st' hst
        dsimp only at hst
        injection hst with he
        subst he
        simp [llm_stats, hook_flag]
    · injection hh with hh0
      subst hh0
      rw [hstub] at hmn
      simp at hmn

/-- C8 witness: the characterization at concrete inputs — a null handle
fails, a clean stub handle yields its (zero) snapshot, and the stub
CAUSE_STATS_FAIL run returns success. -/
theorem c8_stats_failure_characterization_witness :
    llm_stats none false = none ∧
    llm_stats (some stubCtx) false = some stubCtx.lastStats ∧
    (llm_eval (some stubCtx) (some "CAUSE_STATS_FAIL") none true oBase).ret =
      0 := by
  refine ⟨?_, ?_, ?_⟩
  · exact (c8_stats_failure_characterization.1 none false).mpr (Or.inl rfl)
  · exact c8_stats_failure_characterization.2.1 stubCtx rfl
  · exact (c8_stats_failure_characterization.2.2.2 stubCtx none oBase rfl).1

/-- C9: every stub-session `llm_eval` with a non-hook prompt invokes the sink
exactly once with the fixed placeholder "ok", returns 0, and stores the
synthetic snapshot: 0 prompt tokens, 1 completion token, 1 total token,
success 1, and strictly positive TTFB, throughput, total duration and peak
RSS. -/
theorem c9_stub_generate (st : LLMContext) (prompt : Option String)
    (opts : Option llm_gen_opts_t) (o : EvalOracle)
    (hstub : st.model_nonnull = false)
    (h1 : prompt ≠ some "CAUSE_EVAL_FAIL")
    (_h2 : prompt ≠ some "CAUSE_STATS_FAIL") :
    (llm_eval (some st) prompt opts true o).ret = 0 ∧
    (llm_eval (some st) prompt opts true o).sink = ["ok"] ∧
    ∃ st', (llm_eval (some st) prompt opts true o).st = some st' ∧
      st'.lastStats.prompt_tokens = 0 ∧ st'.lastStats.completion_tokens = 1 ∧
      st'.lastStats.total_tokens = 1 ∧ st'.lastStats.success = 1 ∧
      0 < st'.lastStats.ttfb_ms ∧ 0 < st'.lastStats.tok_per_sec ∧
      0 < st'.lastStats.total_ms ∧ 0 < st'.lastStats.peak_rss_mb := by
  rcases llm_eval_spec (some st) prompt opts true o _ rfl with
      ⟨hh, _⟩ | ⟨_, _, hcb, _⟩ | ⟨st0, hh, _, hmn, hre⟩ | ⟨st0, hh, _, hmn, _⟩
  · simp at hh
  · simp at hcb
  · injection hh with hh0
    subst hh0
    rcases stub_eval_spec _ prompt _ hre.symm with ⟨hp, _⟩ | ⟨hp, hr2⟩
    · exact absurd hp h1
    · rw [hr2]
      refine ⟨rfl, rfl, _, rfl, ?_⟩
      norm_num [stub_stats]
  · injection hh with hh0
    subst hh0
    rw [hstub] at hmn
    simp at hmn

/-- C9 witness: the concrete stub scenario of the spec. -/
theorem c9_stub_generate_witness :
    (llm_eval (some stubCtx) (some "hello") (some opts2) true oBase).ret = 0 ∧
    (llm_eval (some stubCtx) (some "hello") (some opts2) true oBase).sink =
      ["ok"] ∧
    ∃ st', (llm_eval (some stubCtx) (some "hello") (some opts2) true
        oBase).st = some st' ∧
      st'.lastStats.prompt_tokens = 0 ∧ st'.lastStats.completion_tokens = 1 ∧
      st'.lastStats.total_tokens = 1 ∧ st'.lastStats.success = 1 ∧
      0 < st'.lastStats.ttfb_ms ∧ 0 < st'.lastStats.tok_per_sec ∧
      0 < st'.lastStats.total_ms ∧ 0 < st'.lastStats.peak_rss_mb :=
  c9_stub_generate stubCtx (some "hello") (some opts2) oBase rfl
    (by decide) (by decide)

/-- C10: a decode-loop iteration whose piece conversion falls outside
`0 < n < 512` delivers nothing to the sink yet still feeds the token back and
counts it; in any success-returning run the number of sink invocations never
exceeds `completion_tokens`; and a concrete run has strictly fewer sink
invocations than completion tokens. -/
theorem c10_skipped_piece_still_counted :
    (∀ (o : EvalOracle) (fuel : Nat) (s : LoopState) (tokv : Int),
      o.cancelAt s.produced = false →
      sample_greedy (o.logits s.produced) = tokv →
      tokv ≠ LLAMA_TOKEN_NULL →
      o.is_eog tokv = false →
      ¬ (0 < o.pieceLen s.produced tokv ∧ o.pieceLen s.produced tokv < 512) →
      o.decode_ok s.produced tokv = true →
      decode_loop o (fuel + 1) s =
        decode_loop o fuel (count_token o { s with fed := s.fed ++ [tokv] }) ∧
      (count_token o { s with fed := s.fed ++ [tokv] }).sink = s.sink ∧
      (count_token o { s with fed := s.fed ++ [tokv] }).fed =
        s.fed ++ [tokv] ∧
      (count_token o { s with fed := s.fed ++ [tokv] }).gen_tokens =
        s.gen_tokens + 1) ∧
    (∀ (o : EvalOracle) (h : Option LLMContext) (prompt : Option String)
        (opts : Option llm_gen_opts_t) (cbn : Bool) (st' : LLMContext),
      (llm_eval h prompt opts cbn o).ret = 0 →
      (llm_eval h prompt opts cbn o).st = some st' →
      ((llm_eval h prompt opts cbn o).sink.length : Int) ≤
        st'.lastStats.completion_tokens) ∧
    (∃ st', (llm_eval (some realCtx) (some "hi") (some opts2) true oSkip).st =
        some st' ∧
      ((llm_eval (some realCtx) (some "hi") (some opts2) true
        oSkip).sink.length : Int) < st'.lastStats.completion_tokens) := by
  refine ⟨?_, ?_, ?_⟩
  · intro o fuel s tokv hc hsam htn heog hskip hd
    have hstep : decode_loop o (fuel + 1) s =
        decode_loop o fuel (count_token o { s with fed := s.fed ++ [tokv] }) := by
      conv_lhs => rw [decode_loop]
      dsimp only
      rw [hsam, if_neg (by rw [hc]; simp), if_neg htn,
        if_neg (by rw [heog]; simp), deliver_piece_skip o s tokv hskip,
        if_neg (by rw [hd]; simp)]
    refine ⟨hstep, ?_, ?_, ?_⟩
    · rw [count_token_sink]
    · rw [count_token_fed]
    · rw [count_token_gen_tokens]
  · intro o h prompt opts cbn st' hret hst
    rcases llm_eval_spec h prompt opts cbn o _ rfl with
        ⟨hh, hre⟩ | ⟨st0, hh, hcb, hre⟩ | ⟨st0, hh, hcb, hre0⟩ |
        ⟨st0, hh, hcb, hre0⟩
    · rw [hre] at hret
      norm_num [ARG_ERROR] at hret
    · rw [hre] at hret
      norm_num [ARG_ERROR] at hret
    · obtain ⟨hmn, hre⟩ := hre0
      rcases stub_eval_spec _ prompt _ hre.symm with ⟨hp, hr2⟩ | ⟨hp, hr2⟩
      · rw [hr2] at hret
        norm_num at hret
      · rw [hr2] at hst ⊢
        dsimp only at hst ⊢
        injection hst with he
        subst he
        norm_num [stub_stats]
    · obtain ⟨hmn, hre⟩ := hre0
      rcases real_eval_spec _ prompt opts o _ hre.symm with
          ⟨hp, hr2⟩ | ⟨hp, ht, hr2⟩ | ⟨hp, ht, hr2⟩ | ⟨hp, ht, hpre, hr2⟩ |
          ⟨hp, ht, hpre, sink, fed, hl, hr2⟩ |
          ⟨hp, ht, hpre, canceled, sf, hl, hr2⟩
      · rw [hr2] at hret
        norm_num at hret
      · rw [hr2] at hret
        norm_num [TOKENIZE_ERROR] at hret
      · rw [hr2] at hst ⊢
        dsimp only at hst ⊢
        injection hst with he
        subst he
        norm_num [empty_prompt_stats]
      · rw [hr2] at hret
        norm_num [PREFILL_ERROR] at hret
      · rw [hr2] at hret
        norm_num at hret
      · rw [hr2] at hst ⊢
        dsimp only at hst ⊢
        injection hst with he
        subst he
        have hlen := decode_loop_sink_len o _ _ _ _ hl
        have : sf.sink.length ≤ sf.gen_tokens := by
          have h0 : (init_loop_state o).gen_tokens = 0 := rfl
          have h1 : (init_loop_state o).sink = ([] : List String) := rfl
          rw [h0, h1] at hlen
          simpa using hlen
        show ((sf.sink.length : Int) ≤
          (finalize_stats o (tokenize_prompt o.tok) canceled sf).completion_tokens)
        unfold finalize_stats
        dsimp only
        exact_mod_cast this
  · refine ⟨_, rfl, ?_⟩
    decide

/-- C10 witness: the per-iteration property at a concrete state (piece length
0 at step 0), and the sink bound on a concrete stub run. -/
theorem c10_skipped_piece_still_counted_witness :
    decode_loop oSkip (0 + 1) (init_loop_state oSkip) =
      decode_loop oSkip 0 (count_token oSkip
        { init_loop_state oSkip with
          fed := (init_loop_state oSkip).fed ++ [1] }) ∧
    ((llm_eval (some stubCtx) (some "hello") none true oBase).sink.length :
      Int) ≤ 1 := by
  constructor
  · exact (c10_skipped_piece_still_counted.1 oSkip 0 (init_loop_state oSkip) 1
      (by decide) (by decide) (by decide) (by decide) (by decide)
      (by decide)).1
  · have := c10_skipped_piece_still_counted.2.1 oBase (some stubCtx)
      (some "hello") none true _ (by decide) rfl
    simpa [stub_stats] using this

end SonifiedLlama
